import Mathlib

/-!
Shallow embedding of `src/app.py` (Brain GIF Generator, a Streamlit app).

The app is one linear request handler: on "Generate GIF" with an uploaded
file it sets an environment flag when a transparent background is asked
for, writes the upload to a temp dir, reads the source estimate, builds
the keyword arguments for `stc.plot`, saves one screenshot per sampled
time point as `frame_%03d.png`, sorts the glob of those files, reads them
back and calls `imageio.mimsave(duration=..., loop=0, disposal=2)`, then
shows a success message, the image and a download button; any exception is
caught and shown with `st.error`, and a `finally` block deletes the
environment flag. With no upload it only shows an error message.

Times are modelled as rationals (the embedding never computes with them;
they are opaque tokens identifying screenshots), and the external
libraries (mne, pyvista, imageio) as an `ExtWorld` record of fallible
calls.
-/

/-- Python `<=` on strings compares the two code-point sequences
lexicographically; this is that comparison on `List Char`. -/
def charListLe : List Char → List Char → Bool
  | [], _ => true
  | _ :: _, [] => false
  | a :: as, b :: bs =>
    if a.toNat < b.toNat then true
    else if b.toNat < a.toNat then false
    else charListLe as bs

/-- Python string `<=` (used by `sorted` on the frame file names). -/
def pyStrLe (a b : String) : Bool :=
  charListLe a.data b.data

/-- The ordering relation `sorted` sorts by, as a `Prop`. -/
def pyLe (a b : String) : Prop :=
  pyStrLe a b = true

instance : DecidableRel pyLe := fun a b => by
  unfold pyLe
  infer_instance

/-- Python `f'\x7bi:03d\x7d'`: the decimal digits of `i`, left-padded with
zeros to width at least 3. -/
def pad3 (i : Nat) : String :=
  String.mk (List.replicate (3 - (Nat.repr i).length) '0') ++ Nat.repr i

/-- The screenshot file name `f'frame_\x7bi:03d\x7d.png'` of app.py line 164. -/
def frameName (i : Nat) : String :=
  "frame_" ++ pad3 i ++ ".png"

/-- Helper for Python slicing with a positive step: `k` counts how many
elements are still to be skipped before the next one is kept. -/
def sliceStepAux {α : Type*} (n : Nat) : Nat → List α → List α
  | _, [] => []
  | 0, x :: xs => x :: sliceStepAux n (n - 1) xs
  | k + 1, _ :: xs => sliceStepAux n k xs

/-- Python slicing with a positive step, `l[::n]` (app.py line 134,
`stc.times[::frame_step]`): every `n`-th element starting at index 0. -/
def sliceStep {α : Type*} (n : Nat) (l : List α) : List α :=
  sliceStepAux n 0 l

/-- The sidebar controls of app.py (lines 33-111) that one render job reads.
Times and the frame duration are modelled as rationals. -/
structure Config where
  transparent_bg : Bool
  colormap_selection : String
  background_color : String
  show_colorbar : Bool
  cortex_selection : String
  hemi_selection : String
  view_selection : List String
  smoothing_steps : Nat
  frame_step : Nat
  gif_duration : ℚ
deriving DecidableEq

/-- The keyword-argument record `plot_kwargs` built for `stc.plot`
(app.py lines 136-153): `transparent` and `background` are optional keys,
absent (`none`) when the corresponding branch does not add them. -/
structure PlotKwargs where
  subject : String
  subjects_dir : String
  hemi : String
  views : List String
  smoothing_steps : Nat
  time_viewer : Bool
  show_traces : Bool
  colormap : String
  colorbar : Bool
  cortex : String
  size : Nat × Nat
  transparent : Option Bool
  background : Option String
deriving DecidableEq

/-- Builds `plot_kwargs` exactly as app.py lines 136-153 do. -/
def mkPlotKwargs (sd : String) (c : Config) : PlotKwargs :=
  { subject := "fsaverage"
    subjects_dir := sd
    hemi := c.hemi_selection
    views := c.view_selection
    smoothing_steps := c.smoothing_steps
    time_viewer := false
    show_traces := false
    colormap := c.colormap_selection
    colorbar := c.show_colorbar
    cortex := c.cortex_selection
    size := (1600, 800)
    transparent := if c.transparent_bg then some true else none
    background := if c.transparent_bg then none else some c.background_color }

/-- The arguments of the `imageio.mimsave` call (app.py lines 177-183).
A frame (the content `imread` returned) is identified by the sampled time
its screenshot was taken at; `none` would mean a missing file. -/
structure MimsaveCall where
  frames : List (Option ℚ)
  duration : ℚ
  loop : Nat
  disposal : Nat
deriving DecidableEq

/-- The user-visible outputs the main panel can produce. -/
inductive Msg where
  | info (text : String)
  | success (text : String)
  | image (caption : String)
  | error (text : String)
  | download (fileName : String)
deriving DecidableEq

/-- Behaviour of the external libraries during one job: the decoded time
axis (or the exception the load raises), and for each later call whether
it raises (`some` message) or succeeds (`none`). -/
structure ExtWorld where
  readTimes : Except String (List ℚ)
  plotErr : PlotKwargs → Option String
  saveErr : Nat → Option String
  imreadErr : Nat → Option String
  mimsaveErr : Option String

/-- The `brain.save_image` loop (app.py lines 162-165): writes
`frame_%03d.png` for the `i`-th sampled time point, aborting at the first
raised exception; returns the files written and the loop's outcome. -/
def saveLoop (saveErr : Nat → Option String) : Nat → List ℚ → List (String × ℚ) × Except String Unit
  | _, [] => ([], Except.ok ())
  | i, t :: ts =>
    match saveErr i with
    | some e => ([], Except.error e)
    | none =>
      let rest := saveLoop saveErr (i + 1) ts
      ((frameName i, t) :: rest.1, rest.2)

/-- Reading one frame file back: the screenshot stored under that name. -/
def lookupTime : List (String × ℚ) → String → Option ℚ
  | [], _ => none
  | p :: rest, f => if p.1 = f then some p.2 else lookupTime rest f

/-- The `imageio.imread` comprehension (app.py line 173) over the sorted
frame files, aborting at the first raised exception. -/
def imreadLoop (imreadErr : Nat → Option String) (dir : List (String × ℚ)) :
    Nat → List String → Except String (List (Option ℚ))
  | _, [] => Except.ok []
  | i, f :: fs =>
    match imreadErr i with
    | some e => Except.error e
    | none =>
      match imreadLoop imreadErr dir (i + 1) fs with
      | Except.error e => Except.error e
      | Except.ok rest => Except.ok (lookupTime dir f :: rest)

/-- `sorted(glob.glob(str(frames_dir / 'frame_*.png')))` (app.py line 172)
after the loop wrote frames `0..k-1`: the directory was freshly created and
every written name matches the pattern, so the glob holds exactly those `k`
names, and `sorted` orders them by Python string comparison (the shared
absolute-path prefix does not affect the order). `insertionSort` is stable,
as Python's `sorted` is. -/
def frameFiles (k : Nat) : List String :=
  List.insertionSort pyLe (List.map frameName (List.range k))

/-- The `st.info` progress message of app.py line 157. -/
def genInfoMsg (k : Nat) : Msg :=
  Msg.info ("Generating " ++ toString k ++ " frames...")

/-- The `st.image` caption of app.py line 188. -/
def captionText (c : Config) : String :=
  "Brain activity | Hemi: " ++ c.hemi_selection ++ " | View: " ++
    String.intercalate ", " c.view_selection

/-- The download file name of app.py line 194. -/
def gifFileName (c : Config) : String :=
  "brain_animation_" ++ c.hemi_selection ++ ".gif"

/-- What one run of the `try` body (app.py lines 121-196) produced. -/
structure BodyOut where
  msgs : List Msg
  wroteUpload : Bool
  plotCall : Option PlotKwargs
  savedFrames : List (String × ℚ)
  mimsaveCall : Option MimsaveCall
  outcome : Except String Unit


/-- The `try` body, app.py lines 121-196: write the upload, read the
source estimate, sample the times, call `stc.plot`, save one screenshot
per sampled time, sort the frame files, read them back and call
`imageio.mimsave`, then show success, image and download button. Each
external call that raises makes the body stop with that exception. -/
def tryBody (c : Config) (ext : ExtWorld) (sd : String) : BodyOut :=
  match ext.readTimes with
  | Except.error e => ⟨[], true, none, [], none, Except.error e⟩
  | Except.ok times =>
    let ts := sliceStep c.frame_step times
    let kwargs := mkPlotKwargs sd c
    match ext.plotErr kwargs with
    | some e => ⟨[], true, some kwargs, [], none, Except.error e⟩
    | none =>
      let saved := saveLoop ext.saveErr 0 ts
      match saved.2 with
      | Except.error e =>
        ⟨[genInfoMsg ts.length], true, some kwargs, saved.1, none, Except.error e⟩
      | Except.ok _ =>
        match imreadLoop ext.imreadErr saved.1 0 (frameFiles ts.length) with
        | Except.error e =>
          ⟨[genInfoMsg ts.length], true, some kwargs, saved.1, none, Except.error e⟩
        | Except.ok images =>
          let call : MimsaveCall := ⟨images, c.gif_duration, 0, 2⟩
          match ext.mimsaveErr with
          | some e =>
            ⟨[genInfoMsg ts.length], true, some kwargs, saved.1, some call, Except.error e⟩
          | none =>
            ⟨[genInfoMsg ts.length, Msg.success "🎉 GIF Generated Successfully!",
              Msg.image (captionText c), Msg.download (gifFileName c)],
             true, some kwargs, saved.1, some call, Except.ok ()⟩

/-- Everything one request leaves behind: the messages shown, whether the
transparent-background environment flag is present afterwards, and what
the job did. -/
structure Output where
  messages : List Msg
  envFlag : Bool
  wroteUpload : Bool
  plotCall : Option PlotKwargs
  savedFrames : List (String × ℚ)
  mimsaveCall : Option MimsaveCall

/-- The `finally` block, app.py lines 201-203: delete the flag when it is
present in the environment. -/
def envAfterFinally (e : Bool) : Bool :=
  if e then false else e

/-- One full request, app.py lines 116-206: the generate branch sets the
environment flag when `transparent_bg` is on, runs the `try` body, appends
the `st.error` message when the body raised, and runs the `finally`
cleanup; with the button pressed but no upload only the
please-upload error is shown; with the button not pressed nothing runs.
`env0` is whether the flag was present when the request started. -/
def runApp (env0 : Bool) (generateButton : Bool) (uploadedFile : Option String)
    (c : Config) (ext : ExtWorld) (sd : String) : Output :=
  if generateButton && uploadedFile.isSome then
    let env1 := if c.transparent_bg then true else env0
    let body := tryBody c ext sd
    let msgs :=
      match body.outcome with
      | Except.ok _ => body.msgs
      | Except.error e =>
        body.msgs ++ [Msg.error ("An error occurred during GIF generation: " ++ e)]
    ⟨msgs, envAfterFinally env1, body.wroteUpload, body.plotCall,
     body.savedFrames, body.mimsaveCall⟩
  else if generateButton then
    ⟨[Msg.error "Please upload a file first."], env0, false, none, [], none⟩
  else
    ⟨[], env0, false, none, [], none⟩

/-- Whether a message offers the artifact to the user: the success
message, the displayed image or the download button (app.py lines 186-196). -/
def Msg.isArtifact : Msg → Bool
  | Msg.success _ => true
  | Msg.image _ => true
  | Msg.download _ => true
  | _ => false

/-- The files the screenshot loop writes when no call raises: file
`frame_%03d.png` of index `i + j` holds the screenshot of the `j`-th of the
remaining sampled times. -/
def framesWritten (i : Nat) : List ℚ → List (String × ℚ)
  | [] => []
  | t :: ts => (frameName i, t) :: framesWritten (i + 1) ts

/-- An external world in which every library call succeeds and the source
estimate has the given time axis. -/
def okExt (times : List ℚ) : ExtWorld :=
  ⟨Except.ok times, fun _ => none, fun _ => none, fun _ => none, none⟩

/-- An external world in which reading the source estimate raises. -/
def failExt (e : String) : ExtWorld :=
  ⟨Except.error e, fun _ => none, fun _ => none, fun _ => none, none⟩

/-- A hundred distinct sampled times, standing for a 100-time-point file. -/
def times100 : List ℚ :=
  List.map (fun i => (i : ℚ)) (List.range 100)

/-- A configuration used to instantiate the theorems: defaults of the
sidebar (opaque background, stride 20). -/
def cfgA : Config :=
  ⟨false, "hot", "white", false, "low_contrast", "split", ["lateral"], 5, 20, 1⟩

/-- Like `cfgA` but with a different colormap, background color and
duration, the same hemisphere. -/
def cfgB : Config :=
  ⟨false, "viridis", "black", true, "classic", "split", ["medial"], 3, 10, 2⟩

/-- A configuration with the transparent background on and stride 1. -/
def cfgT : Config :=
  ⟨true, "hot", "white", false, "low_contrast", "lh", ["lateral"], 5, 1, 1⟩

/-! Auxiliary definitions for the theorems and their witnesses. -/

theorem charListLe_total : ∀ a b : List Char,
    charListLe a b = true ∨ charListLe b a = true
  | [], _ => Or.inl rfl
  | _ :: _, [] => Or.inr rfl
  | a :: as, b :: bs => by
    rcases Nat.lt_trichotomy a.toNat b.toNat with h | h | h
    · exact Or.inl (by simp [charListLe, h])
    · have hab : ¬ a.toNat < b.toNat := by omega
      have hba : ¬ b.toNat < a.toNat := by omega
      rcases charListLe_total as bs with htl | htl
      · exact Or.inl (by simp [charListLe, hab, hba, htl])
      · exact Or.inr (by simp [charListLe, hab, hba, htl])
    · exact Or.inr (by simp [charListLe, h])

theorem charListLe_trans : ∀ a b c : List Char,
    charListLe a b = true → charListLe b c = true → charListLe a c = true
  | [], _, _, _, _ => rfl
  | _ :: _, [], _, hab, _ => by simp [charListLe] at hab
  | _ :: _, _ :: _, [], _, hbc => by simp [charListLe] at hbc
  | a :: as, b :: bs, c :: cs, hab, hbc => by
    simp only [charListLe] at hab hbc ⊢
    rcases Nat.lt_trichotomy a.toNat b.toNat with h1 | h1 | h1
    · rcases Nat.lt_trichotomy b.toNat c.toNat with h2 | h2 | h2
      · have hac : a.toNat < c.toNat := h1.trans h2
        simp [hac]
      · have hac : a.toNat < c.toNat := h2 ▸ h1
        simp [hac]
      · have hn1 : ¬ b.toNat < c.toNat := by omega
        simp [hn1, h2] at hbc
    · rcases Nat.lt_trichotomy b.toNat c.toNat with h2 | h2 | h2
      · have hac : a.toNat < c.toNat := h1 ▸ h2
        simp [hac]
      · have hn1 : ¬ a.toNat < c.toNat := by omega
        have hn2 : ¬ c.toNat < a.toNat := by omega
        have hn3 : ¬ a.toNat < b.toNat := by omega
        have hn4 : ¬ b.toNat < a.toNat := by omega
        have hn5 : ¬ b.toNat < c.toNat := by omega
        have hn6 : ¬ c.toNat < b.toNat := by omega
        simp only [hn3, hn4, if_neg, if_false, not_false_iff, ite_false] at hab
        simp only [hn5, hn6, if_neg, if_false, not_false_iff, ite_false] at hbc
        simp only [hn1, hn2, if_neg, if_false, not_false_iff, ite_false]
        exact charListLe_trans as bs cs hab hbc
      · have hn1 : ¬ b.toNat < c.toNat := by omega
        simp [hn1, h2] at hbc
    · have hn1 : ¬ a.toNat < b.toNat := by omega
      simp [hn1, h1] at hab

instance : IsTotal String pyLe :=
  ⟨fun a b => charListLe_total a.data b.data⟩

instance : IsTrans String pyLe :=
  ⟨fun a b c => charListLe_trans a.data b.data c.data⟩


theorem sub_stride_div (n m : Nat) (hn : 1 ≤ n) :
    (m - (n - 1) + n - 1) / n = m / n := by
  rcases le_or_lt (n - 1) m with h | h
  · have e : m - (n - 1) + n - 1 = m := by omega
    rw [e]
  · have e : m - (n - 1) + n - 1 = n - 1 := by omega
    rw [e, Nat.div_eq_of_lt (by omega), Nat.div_eq_of_lt (by omega)]

theorem length_sliceStepAux {α : Type*} (n : Nat) (hn : 1 ≤ n) :
    ∀ (l : List α) (k : Nat),
      (sliceStepAux n k l).length = (l.length - k + n - 1) / n := by
  intro l
  induction l with
  | nil =>
    intro k
    simp only [sliceStepAux, List.length_nil]
    have e : 0 - k + n - 1 = n - 1 := by omega
    rw [e, Nat.div_eq_of_lt (by omega)]
  | cons x xs ih =>
    intro k
    cases k with
    | zero =>
      simp only [sliceStepAux, List.length_cons, ih (n - 1)]
      rw [sub_stride_div n xs.length hn]
      have e : xs.length + 1 - 0 + n - 1 = xs.length + n := by omega
      rw [e, Nat.add_div_right _ (by omega)]
    | succ j =>
      simp only [sliceStepAux, List.length_cons, ih j]
      have e : xs.length + 1 - (j + 1) = xs.length - j := by omega
      rw [e]

theorem length_sliceStep {α : Type*} (n : Nat) (hn : 1 ≤ n) (l : List α) :
    (sliceStep n l).length = (l.length + n - 1) / n := by
  unfold sliceStep
  rw [length_sliceStepAux n hn l 0, Nat.sub_zero]

theorem length_frameFiles (k : Nat) : (frameFiles k).length = k := by
  simp [frameFiles, List.length_insertionSort]

theorem framesWritten_length : ∀ (ts : List ℚ) (i : Nat),
    (framesWritten i ts).length = ts.length := by
  intro ts
  induction ts with
  | nil => intro i; rfl
  | cons t ts ih => intro i; simp [framesWritten, ih]

theorem saveLoop_ok (err : Nat → Option String) (h : ∀ j, err j = none) :
    ∀ (ts : List ℚ) (i : Nat),
      saveLoop err i ts = (framesWritten i ts, Except.ok ()) := by
  intro ts
  induction ts with
  | nil => intro i; rfl
  | cons t ts ih => intro i; simp [saveLoop, h i, ih, framesWritten]

theorem imreadLoop_ok (err : Nat → Option String) (h : ∀ j, err j = none)
    (dir : List (String × ℚ)) :
    ∀ (fs : List String) (i : Nat),
      imreadLoop err dir i fs = Except.ok (fs.map (lookupTime dir)) := by
  intro fs
  induction fs with
  | nil => intro i; rfl
  | cons f fs ih => intro i; simp [imreadLoop, h i, ih]

theorem envAfterFinally_eq_false (e : Bool) : envAfterFinally e = false := by
  cases e <;> rfl

theorem runApp_job (env0 : Bool) (nm : String) (c : Config) (ext : ExtWorld)
    (sd : String) :
    runApp env0 true (some nm) c ext sd =
      ⟨(match (tryBody c ext sd).outcome with
         | Except.ok _ => (tryBody c ext sd).msgs
         | Except.error e =>
             (tryBody c ext sd).msgs ++
               [Msg.error ("An error occurred during GIF generation: " ++ e)]),
       envAfterFinally (if c.transparent_bg then true else env0),
       (tryBody c ext sd).wroteUpload, (tryBody c ext sd).plotCall,
       (tryBody c ext sd).savedFrames, (tryBody c ext sd).mimsaveCall⟩ := rfl

theorem tryBody_allOk (c : Config) (ext : ExtWorld) (sd : String)
    (times : List ℚ)
    (hread : ext.readTimes = Except.ok times)
    (hplot : ∀ kw, ext.plotErr kw = none)
    (hsave : ∀ i, ext.saveErr i = none)
    (himread : ∀ i, ext.imreadErr i = none)
    (hmim : ext.mimsaveErr = none) :
    tryBody c ext sd =
      ⟨[genInfoMsg (sliceStep c.frame_step times).length,
        Msg.success "🎉 GIF Generated Successfully!",
        Msg.image (captionText c), Msg.download (gifFileName c)],
       true, some (mkPlotKwargs sd c),
       framesWritten 0 (sliceStep c.frame_step times),
       some ⟨(frameFiles (sliceStep c.frame_step times).length).map
               (lookupTime (framesWritten 0 (sliceStep c.frame_step times))),
             c.gif_duration, 0, 2⟩,
       Except.ok ()⟩ := by
  simp only [tryBody, hread, hplot, saveLoop_ok ext.saveErr hsave,
    imreadLoop_ok ext.imreadErr himread, hmim]

theorem tryBody_shape (c : Config) (ext : ExtWorld) (sd : String) :
    ((tryBody c ext sd).plotCall = none ∨
      (tryBody c ext sd).plotCall = some (mkPlotKwargs sd c)) ∧
    ((tryBody c ext sd).mimsaveCall = none ∨
      ∃ imgs, (tryBody c ext sd).mimsaveCall =
        some ⟨imgs, c.gif_duration, 0, 2⟩) ∧
    ((∃ e, (tryBody c ext sd).outcome = Except.error e ∧
        ((tryBody c ext sd).msgs = [] ∨
          ∃ k, (tryBody c ext sd).msgs = [genInfoMsg k])) ∨
      ((tryBody c ext sd).outcome = Except.ok () ∧
        ∃ k, (tryBody c ext sd).msgs =
          [genInfoMsg k, Msg.success "🎉 GIF Generated Successfully!",
           Msg.image (captionText c), Msg.download (gifFileName c)])) := by
  rcases hr : ext.readTimes with e | times
  · have hT : tryBody c ext sd = ⟨[], true, none, [], none, Except.error e⟩ := by
      simp only [tryBody, hr]
    rw [hT]
    exact ⟨Or.inl rfl, Or.inl rfl, Or.inl ⟨e, rfl, Or.inl rfl⟩⟩
  · rcases hp : ext.plotErr (mkPlotKwargs sd c) with _ | e
    · rcases hs : (saveLoop ext.saveErr 0 (sliceStep c.frame_step times)).2
        with e | u
      · have hT : tryBody c ext sd =
            ⟨[genInfoMsg (sliceStep c.frame_step times).length], true,
             some (mkPlotKwargs sd c),
             (saveLoop ext.saveErr 0 (sliceStep c.frame_step times)).1, none,
             Except.error e⟩ := by
          simp only [tryBody, hr, hp, hs]
        rw [hT]
        exact ⟨Or.inr rfl, Or.inl rfl,
          Or.inl ⟨e, rfl, Or.inr ⟨(sliceStep c.frame_step times).length, rfl⟩⟩⟩
      · rcases hi : imreadLoop ext.imreadErr
            (saveLoop ext.saveErr 0 (sliceStep c.frame_step times)).1 0
            (frameFiles (sliceStep c.frame_step times).length) with e | imgs
        · have hT : tryBody c ext sd =
              ⟨[genInfoMsg (sliceStep c.frame_step times).length], true,
               some (mkPlotKwargs sd c),
               (saveLoop ext.saveErr 0 (sliceStep c.frame_step times)).1, none,
               Except.error e⟩ := by
            simp only [tryBody, hr, hp, hs, hi]
          rw [hT]
          exact ⟨Or.inr rfl, Or.inl rfl,
            Or.inl ⟨e, rfl,
              Or.inr ⟨(sliceStep c.frame_step times).length, rfl⟩⟩⟩
        · rcases hm : ext.mimsaveErr with _ | e
          · have hT : tryBody c ext sd =
                ⟨[genInfoMsg (sliceStep c.frame_step times).length,
                  Msg.success "🎉 GIF Generated Successfully!",
                  Msg.image (captionText c), Msg.download (gifFileName c)], true,
                 some (mkPlotKwargs sd c),
                 (saveLoop ext.saveErr 0 (sliceStep c.frame_step times)).1,
                 some ⟨imgs, c.gif_duration, 0, 2⟩, Except.ok ()⟩ := by
              simp only [tryBody, hr, hp, hs, hi, hm]
            rw [hT]
            exact ⟨Or.inr rfl, Or.inr ⟨imgs, rfl⟩,
              Or.inr ⟨rfl, (sliceStep c.frame_step times).length, rfl⟩⟩
          · have hT : tryBody c ext sd =
                ⟨[genInfoMsg (sliceStep c.frame_step times).length], true,
                 some (mkPlotKwargs sd c),
                 (saveLoop ext.saveErr 0 (sliceStep c.frame_step times)).1,
                 some ⟨imgs, c.gif_duration, 0, 2⟩, Except.error e⟩ := by
              simp only [tryBody, hr, hp, hs, hi, hm]
            rw [hT]
            exact ⟨Or.inr rfl, Or.inr ⟨imgs, rfl⟩,
              Or.inl ⟨e, rfl,
                Or.inr ⟨(sliceStep c.frame_step times).length, rfl⟩⟩⟩
    · have hT : tryBody c ext sd =
          ⟨[], true, some (mkPlotKwargs sd c), [], none, Except.error e⟩ := by
        simp only [tryBody, hr, hp]
      rw [hT]
      exact ⟨Or.inr rfl, Or.inl rfl, Or.inl ⟨e, rfl, Or.inl rfl⟩⟩

/-- C3: for every render job (any configuration and external behaviour,
success or failure), the transparent-background environment flag
`PYVISTA_TRANSPARENT_PLOTTER` is absent after the request completes,
whether or not it was present at the start: the `finally` block of
app.py lines 201-203 deletes it on every exit path of the `try`. -/
theorem env_flag_cleared_after_job (env0 : Bool) (nm : String) (c : Config)
    (ext : ExtWorld) (sd : String) :
    (runApp env0 true (some nm) c ext sd).envFlag = false := by
  rw [runApp_job]
  exact envAfterFinally_eq_false _

/-- C10: when the environment flag was already present before the job
started (`env0 = true`), the cleanup deletes it rather than restoring it,
for every configuration — including those with the transparent option
off: post-request the flag is always absent. -/
theorem preexisting_flag_deleted_not_restored (nm : String) (c : Config)
    (ext : ExtWorld) (sd : String) :
    (runApp true true (some nm) c ext sd).envFlag = false := by
  rw [runApp_job]
  exact envAfterFinally_eq_false _

/-- C4: pressing Generate with no uploaded file (app.py lines 205-206)
only shows the please-upload error: nothing is written, the render is
never invoked, the environment flag keeps its prior state untouched, no
screenshot is saved and no artifact is assembled. -/
theorem no_upload_short_circuit (env0 : Bool) (c : Config) (ext : ExtWorld)
    (sd : String) :
    runApp env0 true none c ext sd =
      ⟨[Msg.error "Please upload a file first."], env0, false, none, [],
       none⟩ := rfl

/-- C9: the keyword-argument record passed to `stc.plot` holds exactly one
of the keys `transparent` and `background` (app.py lines 150-153):
`transparent = True` when the transparent option is on, otherwise
`background = <selected color>`, never both and never neither. -/
theorem plot_kwargs_exactly_one_bg_key (sd : String) (c : Config) :
    (c.transparent_bg = true ∧ (mkPlotKwargs sd c).transparent = some true ∧
        (mkPlotKwargs sd c).background = none) ∨
    (c.transparent_bg = false ∧ (mkPlotKwargs sd c).transparent = none ∧
        (mkPlotKwargs sd c).background = some c.background_color) := by
  cases h : c.transparent_bg
  · right
    refine ⟨rfl, ?_, ?_⟩ <;> simp [mkPlotKwargs, h]
  · left
    refine ⟨rfl, ?_, ?_⟩ <;> simp [mkPlotKwargs, h]

/-- C1: for a valid input artifact whose time axis has `T` points and a
stride `N` with `1 ≤ N ≤ 50`, a job in which no library call raises saves
exactly `⌈T / N⌉ = (T + N - 1) / N` still images, and passes exactly that
many frames to the GIF encoder. -/
theorem still_count_eq_ceil (env0 : Bool) (nm : String) (c : Config)
    (ext : ExtWorld) (sd : String) (times : List ℚ)
    (hread : ext.readTimes = Except.ok times)
    (hplot : ∀ kw, ext.plotErr kw = none)
    (hsave : ∀ i, ext.saveErr i = none)
    (himread : ∀ i, ext.imreadErr i = none)
    (hmim : ext.mimsaveErr = none)
    (hn1 : 1 ≤ c.frame_step) (_hn50 : c.frame_step ≤ 50) :
    (runApp env0 true (some nm) c ext sd).savedFrames.length
        = (times.length + c.frame_step - 1) / c.frame_step ∧
    ((runApp env0 true (some nm) c ext sd).mimsaveCall.map
        fun m => m.frames.length)
        = some ((times.length + c.frame_step - 1) / c.frame_step) := by
  simp only [runApp_job,
    tryBody_allOk c ext sd times hread hplot hsave himread hmim,
    Option.map_some']
  constructor
  · rw [framesWritten_length, length_sliceStep c.frame_step hn1 times]
  · rw [List.length_map, length_frameFiles,
      length_sliceStep c.frame_step hn1 times]

/-- Witness for C1 at the spec's example scenario: 100 time points with
stride 20 give exactly 5 still images and 5 encoder frames. -/
theorem still_count_eq_ceil_witness :
    ((runApp false true (some "subject.stc") cfgA (okExt times100)
          "sd").savedFrames.length
        = (times100.length + cfgA.frame_step - 1) / cfgA.frame_step ∧
      ((runApp false true (some "subject.stc") cfgA (okExt times100)
           "sd").mimsaveCall.map fun m => m.frames.length)
        = some ((times100.length + cfgA.frame_step - 1) / cfgA.frame_step)) ∧
    (times100.length + cfgA.frame_step - 1) / cfgA.frame_step = 5 := by
  constructor
  · exact still_count_eq_ceil false "subject.stc" cfgA (okExt times100) "sd"
      times100 rfl (fun _ => rfl) (fun _ => rfl) (fun _ => rfl) rfl
      (by decide) (by decide)
  · decide

/-- C5: when any library call of the job raises (load, render, screenshot,
image read or GIF assembly), the request surfaces an error message that
contains the failure message, and offers no artifact: no success message,
no image display, no download button. -/
theorem error_surfaced_no_artifact (env0 : Bool) (nm : String) (c : Config)
    (ext : ExtWorld) (sd : String) (e : String)
    (h : (tryBody c ext sd).outcome = Except.error e) :
    Msg.error ("An error occurred during GIF generation: " ++ e) ∈
        (runApp env0 true (some nm) c ext sd).messages ∧
    ((runApp env0 true (some nm) c ext sd).messages.all
        fun m => !m.isArtifact) = true := by
  rcases (tryBody_shape c ext sd).2.2 with ⟨e', ho, hm⟩ | ⟨ho, _⟩
  · have he : e' = e := by
      rw [h] at ho
      exact (Except.error.injEq _ _).mp ho.symm
    subst he
    have hmsgs : (runApp env0 true (some nm) c ext sd).messages
        = (tryBody c ext sd).msgs ++
            [Msg.error ("An error occurred during GIF generation: " ++ e')] := by
      rw [runApp_job]
      simp only [ho]
    rw [hmsgs]
    constructor
    · exact List.mem_append_right _ (List.mem_singleton.mpr rfl)
    · rcases hm with h0 | ⟨k, hk⟩
      · rw [h0]
        rfl
      · rw [hk]
        rfl
  · rw [ho] at h
    exact Except.noConfusion h

/-- Witness for C5: a job whose source-estimate load raises with message
"boom" surfaces that message and offers nothing. -/
theorem error_surfaced_no_artifact_witness :
    Msg.error ("An error occurred during GIF generation: " ++ "boom") ∈
        (runApp false true (some "subject.stc") cfgA (failExt "boom")
          "sd").messages ∧
    ((runApp false true (some "subject.stc") cfgA (failExt "boom")
        "sd").messages.all fun m => !m.isArtifact) = true :=
  error_surfaced_no_artifact false "subject.stc" cfgA (failExt "boom") "sd"
    "boom" rfl

theorem mkPlotKwargs_bg_inert (sd : String) (c : Config) (b : String)
    (h : c.transparent_bg = true) :
    mkPlotKwargs sd { c with background_color := b } = mkPlotKwargs sd c := by
  simp [mkPlotKwargs, h]

theorem tryBody_bg_inert (c : Config) (ext : ExtWorld) (sd : String)
    (b : String) (h : c.transparent_bg = true) :
    tryBody { c with background_color := b } ext sd = tryBody c ext sd := by
  unfold tryBody
  rw [mkPlotKwargs_bg_inert sd c b h]
  rfl

/-- C6: with the transparent-background option on, the background-color
selection has no effect: two runs identical up to the background color
pass identical keyword arguments to the render call, and those arguments
carry `transparent = True` and no `background` key. -/
theorem transparent_makes_bg_color_inert (env0 env0' : Bool)
    (nm nm' : String) (c : Config) (b : String) (ext : ExtWorld)
    (sd : String) (kw : PlotKwargs)
    (h : c.transparent_bg = true)
    (hkw : (runApp env0 true (some nm) c ext sd).plotCall = some kw) :
    (runApp env0' true (some nm') { c with background_color := b } ext
        sd).plotCall = (runApp env0 true (some nm) c ext sd).plotCall ∧
    kw.transparent = some true ∧ kw.background = none := by
  have hpc : (runApp env0' true (some nm') { c with background_color := b }
      ext sd).plotCall = (tryBody { c with background_color := b } ext
      sd).plotCall := by
    rw [runApp_job]
  have hpc' : (runApp env0 true (some nm) c ext sd).plotCall
      = (tryBody c ext sd).plotCall := by
    rw [runApp_job]
  refine ⟨by rw [hpc, hpc', tryBody_bg_inert c ext sd b h], ?_⟩
  rw [hpc'] at hkw
  rcases (tryBody_shape c ext sd).1 with hn | hsome
  · rw [hn] at hkw
    exact Option.noConfusion hkw
  · rw [hsome] at hkw
    have : mkPlotKwargs sd c = kw := (Option.some.injEq _ _).mp hkw
    subst this
    constructor <;> simp [mkPlotKwargs, h]

/-- Witness for C6: a transparent-background run with stride 1 and one
time point; the white-to-black background change leaves the render call
unchanged. -/
theorem transparent_makes_bg_color_inert_witness :
    (runApp true true (some "other.stc") { cfgT with background_color :=
        "black" } (okExt [0]) "sd").plotCall
      = (runApp false true (some "subject.stc") cfgT (okExt [0])
          "sd").plotCall ∧
    (mkPlotKwargs "sd" cfgT).transparent = some true ∧
    (mkPlotKwargs "sd" cfgT).background = none :=
  transparent_makes_bg_color_inert false true "subject.stc" "other.stc"
    cfgT "black" (okExt [0]) "sd" (mkPlotKwargs "sd" cfgT) rfl rfl

theorem download_mem_name (env0 : Bool) (nm : String) (c : Config)
    (ext : ExtWorld) (sd : String) (f : String)
    (h : Msg.download f ∈ (runApp env0 true (some nm) c ext sd).messages) :
    f = gifFileName c := by
  rcases (tryBody_shape c ext sd).2.2 with ⟨e, ho, hm⟩ | ⟨ho, k, hk⟩
  · have hmsgs : (runApp env0 true (some nm) c ext sd).messages
        = (tryBody c ext sd).msgs ++
            [Msg.error ("An error occurred during GIF generation: " ++ e)] := by
      rw [runApp_job]
      simp only [ho]
    rw [hmsgs] at h
    rcases List.mem_append.mp h with hL | hR
    · rcases hm with h0 | ⟨k, hk⟩
      · rw [h0] at hL
        exact absurd hL (List.not_mem_nil _)
      · rw [hk] at hL
        have := List.mem_singleton.mp hL
        exact Msg.noConfusion this
    · have := List.mem_singleton.mp hR
      exact Msg.noConfusion this
  · have hmsgs : (runApp env0 true (some nm) c ext sd).messages
        = (tryBody c ext sd).msgs := by
      rw [runApp_job]
      simp only [ho]
    rw [hmsgs, hk] at h
    simp only [List.mem_cons, List.not_mem_nil, or_false] at h
    rcases h with h | h | h | h
    · exact Msg.noConfusion h
    · exact Msg.noConfusion h
    · exact Msg.noConfusion h
    · exact (Msg.download.injEq _ _).mp h

/-- C7: the download file name of a successful job is determined solely by
the hemisphere selection: two jobs that offer a download and share the
hemisphere selection name the file identically, whatever every other
input, option or external behaviour was. -/
theorem download_name_hemi_determined (env0 env0' : Bool) (nm nm' : String)
    (c c' : Config) (ext ext' : ExtWorld) (sd sd' : String) (f f' : String)
    (h : Msg.download f ∈ (runApp env0 true (some nm) c ext sd).messages)
    (h' : Msg.download f' ∈
      (runApp env0' true (some nm') c' ext' sd').messages)
    (hh : c.hemi_selection = c'.hemi_selection) : f = f' := by
  rw [download_mem_name env0 nm c ext sd f h,
    download_mem_name env0' nm' c' ext' sd' f' h']
  unfold gifFileName
  rw [hh]

/-- Witness for C7: two successful jobs with different colormaps,
backgrounds, strides, durations, times and environments but the same
hemisphere name the download identically. -/
theorem download_name_hemi_determined_witness :
    Msg.download "brain_animation_split.gif" ∈
        (runApp false true (some "subject.stc") cfgA (okExt times100)
          "sd").messages ∧
    Msg.download "brain_animation_split.gif" ∈
        (runApp true true (some "other.stc") cfgB (okExt [0, 1])
          "sd2").messages ∧
    ("brain_animation_split.gif" : String) = "brain_animation_split.gif" := by
  refine ⟨?m1, ?m2, ?_⟩
  case m1 => decide
  case m2 => decide
  exact download_name_hemi_determined false true "subject.stc" "other.stc"
    cfgA cfgB (okExt times100) (okExt [0, 1]) "sd" "sd2"
    "brain_animation_split.gif" "brain_animation_split.gif"
    (by decide) (by decide) rfl

/-- C8: every `imageio.mimsave` invocation of a render job carries the
user-configured per-frame duration and `loop = 0`, the GIF loop count
meaning loop forever (app.py lines 177-183). -/
theorem mimsave_duration_loop (env0 : Bool) (nm : String) (c : Config)
    (ext : ExtWorld) (sd : String) (m : MimsaveCall)
    (hm : (runApp env0 true (some nm) c ext sd).mimsaveCall = some m) :
    m.duration = c.gif_duration ∧ m.loop = 0 := by
  have hm' : (tryBody c ext sd).mimsaveCall = some m := by
    rw [runApp_job] at hm
    exact hm
  rcases (tryBody_shape c ext sd).2.1 with hn | ⟨imgs, hs⟩
  · rw [hn] at hm'
    exact Option.noConfusion hm'
  · rw [hs] at hm'
    have : (⟨imgs, c.gif_duration, 0, 2⟩ : MimsaveCall) = m :=
      (Option.some.injEq _ _).mp hm'
    rw [← this]
    exact ⟨rfl, rfl⟩

/-- Witness for C8: a one-frame job; the encoder call carries the
configured duration 1 and loop 0. -/
theorem mimsave_duration_loop_witness :
    (MimsaveCall.mk [some 0] 1 0 2).duration = cfgT.gif_duration ∧
    (MimsaveCall.mk [some 0] 1 0 2).loop = 0 :=
  mimsave_duration_loop false "subject.stc" cfgT (okExt [0]) "sd"
    (MimsaveCall.mk [some 0] 1 0 2) rfl

/-- C2 fails on the code: with 1001 sampled time points the frame files,
sorted as strings, are not in frame-index (time) order, because
`frame_1000.png` sorts between `frame_100.png` and `frame_101.png`; the
GIF therefore receives frames out of time order. This theorem records the
falsity at that input: the sorted file list differs from the list in
screenshot (time) order. -/
theorem frame_order_not_time_order :
    (frameFiles 1001 = List.map frameName (List.range 1001)) = False := by
  apply eq_false
  intro h
  have hs : List.Sorted pyLe (frameFiles 1001) :=
    List.sorted_insertionSort pyLe _
  rw [h, List.range_succ, List.map_append] at hs
  have h999 : pyLe (frameName 999) (frameName 1000) :=
    (List.pairwise_append.mp hs).2.2 (frameName 999)
      (List.mem_map_of_mem _ (List.mem_range.mpr (by omega)))
      (frameName 1000) (by simp)
  exact absurd h999 (by decide)
